import Mathlib

/-!
Verification of the camera-detection core in `src/camera/device_enum.rs`.

The classification engine is embedded shallowly: Rust `String`s become
`List Char` (Rust iterates `char`s; where the code takes a byte length,
`Char.utf8Size` recovers it), `Option` stays `Option`, and the two
OS-enumeration backends are abstracted as an arbitrary inventory passed
to the aggregator, since they are pure COM interop with no decision
logic.  Rust `str::to_lowercase` is modelled per character with ASCII
case folding, which agrees with it on every ASCII string.
-/

namespace CameraDetect

/-- Device strings, as sequences of Unicode scalar values. -/
abbrev Str := List Char

/-- ASCII lower-casing of a whole string, modelling `str::to_lowercase`. -/
def toLowerStr (s : Str) : Str := s.map Char.toLower

/-- Whether `needle` is an initial run of `s` (`==` on each character). -/
def startsWithChars : Str → Str → Bool
  | [], _ => true
  | _ :: _, [] => false
  | a :: as, b :: bs => a == b && startsWithChars as bs

/-- Substring containment, modelling Rust `str::contains` with a string
pattern: `needle` occurs contiguously somewhere in the second argument.
UTF-8 is self-synchronizing, so byte-level search and character-level
search find occurrences at exactly the same places. -/
def containsSub (needle : Str) : Str → Bool
  | [] => startsWithChars needle []
  | c :: rest => startsWithChars needle (c :: rest) || containsSub needle rest

/-- The suffix that follows the first occurrence of `token`, modelling
`source.find(token)` followed by slicing at `found + token.len()`;
`none` when the token does not occur. -/
def dropAfterFirst (token : Str) : Str → Option Str
  | [] => if startsWithChars token [] then some [] else none
  | c :: rest =>
    if startsWithChars token (c :: rest) then some (List.drop token.length (c :: rest))
    else dropAfterFirst token rest

/-- UTF-8 byte length of a string, i.e. Rust `String::len`. -/
def utf8Len (s : Str) : Nat := (s.map Char.utf8Size).sum

/-- `extract_segment` from device_enum.rs: find `token`, take the next
(up to) 4 characters, and return them only if the collected segment's
`len()` — its UTF-8 byte length — is exactly 4. -/
def extract_segment (source token : Str) : Option Str :=
  match dropAfterFirst token source with
  | none => none
  | some rest =>
    let segment := rest.take 4
    if utf8Len segment == 4 then some segment else none

/-- `parse_vid_pid` from device_enum.rs: lower-case the path, then
extract the segments after `vid_` and after `pid_` independently. -/
def parse_vid_pid (device_path : Option Str) : Option Str × Option Str :=
  match device_path with
  | none => (none, none)
  | some device_path =>
    let device_path_lower := toLowerStr device_path
    let vid := extract_segment device_path_lower ("vid_".toList)
    let pid := extract_segment device_path_lower ("pid_".toList)
    (vid, pid)

/-- `CameraDevice` from device_enum.rs. -/
structure CameraDevice where
  name : Str
  manufacturer : Option Str
  device_path : Option Str
  driver : Option Str
  vid : Option Str
  pid : Option Str
  clsid : Option Str
  deriving DecidableEq

/-- `DetectionResult` from device_enum.rs. -/
inductive DetectionResult where
  | RealCamera
  | VirtualCamera
  | NoCamera
  deriving DecidableEq

/-- Lower-case an optional field, or contribute nothing — one
conditional `push_str` of `is_virtual_camera`'s haystack loop. -/
def optLower : Option Str → Str
  | some v => toLowerStr v
  | none => []

/-- The classifier's haystack: lower-cased `name`, `manufacturer`,
`driver`, `device_path` concatenated in that order with no separator. -/
def haystack (device : CameraDevice) : Str :=
  toLowerStr device.name ++ optLower device.manufacturer
    ++ optLower device.driver ++ optLower device.device_path

/-- The `name_blacklist` table of `is_virtual_camera`. -/
def name_blacklist : List Str :=
  ["virtual".toList, "obs".toList, "manycam".toList, "snap camera".toList,
   "xsplit".toList, "mmhmm".toList, "droidcam".toList, "iriun".toList,
   "contacam".toList, "streamlabs".toList, "camsip".toList]

/-- First rule layer of `is_virtual_camera`: some blacklist needle
occurs in the haystack. -/
def name_layer (device : CameraDevice) : Bool :=
  name_blacklist.any fun needle => containsSub needle (haystack device)

/-- The `clsid_blacklist` table of `is_virtual_camera`. -/
def clsid_blacklist : List Str :=
  ["\x7b860bb310-5d01-11d0-bd3b-00a0c911ce86\x7d".toList,
   "\x7be5323777-f976-4f5b-9b55-b94699c46e44\x7d".toList]

/-- Second rule layer of `is_virtual_camera`: the lower-cased `clsid`,
when present, contains a blacklisted class identifier. -/
def clsid_layer (device : CameraDevice) : Bool :=
  match device.clsid with
  | some clsid => clsid_blacklist.any fun needle => containsSub needle (toLowerStr clsid)
  | none => false

/-- The `vid_pid_blacklist` table of `is_virtual_camera`. -/
def vid_pid_blacklist : List (Str × Str) :=
  [("0bda".toList, "58f4".toList), ("0c45".toList, "6366".toList),
   ("2b7e".toList, "f13a".toList), ("05a3".toList, "9331".toList)]

/-- Third rule layer of `is_virtual_camera`: both ids present and the
lower-cased pair equals a blacklisted pair exactly. -/
def vid_pid_layer (device : CameraDevice) : Bool :=
  match device.vid, device.pid with
  | some vid, some pid =>
    vid_pid_blacklist.any fun pair =>
      pair.fst == toLowerStr vid && pair.snd == toLowerStr pid
  | _, _ => false

/-- `is_virtual_camera` from device_enum.rs: the three layers in source
order, each early-returning `true` on a match, `false` otherwise. -/
def is_virtual_camera (device : CameraDevice) : Bool :=
  if name_layer device then true
  else if clsid_layer device then true
  else vid_pid_layer device

/-- The device merger of `enumerate_windows_devices`: plain
concatenation of the backend outputs, in backend order. -/
def merge_backends (backends : List (List CameraDevice)) : List CameraDevice :=
  backends.flatten

/-- One iteration of the `for device in &devices` loop of
`detect_cameras`; the accumulator is `(has_real, has_virtual)`. -/
def detectStep (acc : Bool × Bool) (device : CameraDevice) : Bool × Bool :=
  if is_virtual_camera device then (acc.fst, true) else (true, acc.snd)

/-- `detect_cameras` from device_enum.rs, applied to the enumerated
inventory (enumeration itself is OS interop with no decision logic):
empty inventory short-circuits to `NoCamera`, otherwise the loop
accumulates the two flags and `has_real` wins over `has_virtual`. -/
def detect_cameras (devices : List CameraDevice) : DetectionResult :=
  if devices.isEmpty then DetectionResult.NoCamera
  else
    let flags := devices.foldl detectStep (false, false)
    if flags.fst then DetectionResult.RealCamera
    else if flags.snd then DetectionResult.VirtualCamera
    else DetectionResult.NoCamera

/-- Lowercase hexadecimal digit, for stating what the spec calls
"4 lowercase hex characters". -/
def isHexDigitChar (c : Char) : Bool :=
  (decide ('0' ≤ c) && decide (c ≤ '9')) || (decide ('a' ≤ c) && decide (c ≤ 'f'))

/-- Uppercase ASCII letter, stated on scalar values. -/
def isAsciiUpper (c : Char) : Bool :=
  decide (65 ≤ c.toNat) && decide (c.toNat ≤ 90)

/-- The DirectShow video-input-device category GUID, first entry of the
`clsid_blacklist`. -/
def videoInputCategoryGuid : Str :=
  "\x7b860bb310-5d01-11d0-bd3b-00a0c911ce86\x7d".toList

/-- A hardware camera record as a backend would build it; its ids are
not blacklisted and its strings match no needle. -/
def brioDevice : CameraDevice :=
  { name := "Logitech BRIO".toList, manufacturer := some ("Logitech".toList),
    device_path := some ("usb#vid_046d&pid_085e".toList), driver := none,
    vid := some ("046d".toList), pid := some ("085e".toList), clsid := none }

/-- A software webcam record, flagged by the name layer. -/
def obsDevice : CameraDevice :=
  { name := "OBS Virtual Camera".toList, manufacturer := none, device_path := none,
    driver := none, vid := none, pid := none, clsid := none }

/-- The same software webcam with its name lower-cased. -/
def obsLowerDevice : CameraDevice :=
  { name := "obs virtual camera".toList, manufacturer := none, device_path := none,
    driver := none, vid := none, pid := none, clsid := none }

/-- A record carrying exactly the blacklisted OBS vendor/product pair;
its other fields match nothing. -/
def pairedIdDevice : CameraDevice :=
  { name := "USB Camera".toList, manufacturer := none,
    device_path := some ("usb#vid_0bda&pid_58f4".toList), driver := none,
    vid := some ("0bda".toList), pid := some ("58f4".toList), clsid := none }

/-- Same vendor id as `pairedIdDevice` but a product id outside the
table. -/
def unpairedIdDevice : CameraDevice :=
  { name := "USB Camera".toList, manufacturer := none,
    device_path := some ("usb#vid_0bda&pid_0000".toList), driver := none,
    vid := some ("0bda".toList), pid := some ("0000".toList), clsid := none }

/-- An ordinary camera whose clsid is the generic video-input category
GUID (upper-cased, as backends report it). -/
def genericGuidDevice : CameraDevice :=
  { name := "Integrated Camera".toList, manufacturer := none, device_path := none,
    driver := none, vid := none, pid := none,
    clsid := some ("\x7b860BB310-5D01-11D0-BD3B-00A0C911CE86\x7d".toList) }

/-- Record whose fields are individually clean but whose concatenated
haystack "web camsipro" contains the needle "camsip". -/
def crossFieldDevice : CameraDevice :=
  { name := "Web Cam".toList, manufacturer := some ("Sipro".toList), device_path := none,
    driver := none, vid := none, pid := none, clsid := none }

/-! ### Helper lemmas -/

theorem foldl_detectStep_fst (l : List CameraDevice) (hr hv : Bool) :
    (l.foldl detectStep (hr, hv)).fst = (hr || l.any fun d => !is_virtual_camera d) := by
  induction l generalizing hr hv with
  | nil => simp
  | cons d rest ih =>
    cases h : is_virtual_camera d <;> simp [detectStep, h, ih]

theorem foldl_detectStep_snd (l : List CameraDevice) (hr hv : Bool) :
    (l.foldl detectStep (hr, hv)).snd = (hv || l.any fun d => is_virtual_camera d) := by
  induction l generalizing hr hv with
  | nil => simp
  | cons d rest ih =>
    cases h : is_virtual_camera d <;> simp [detectStep, h, ih]

theorem detect_cameras_cons (a : CameraDevice) (rest : List CameraDevice) :
    detect_cameras (a :: rest) =
      if (a :: rest).any (fun d => !is_virtual_camera d) then DetectionResult.RealCamera
      else if (a :: rest).any (fun d => is_virtual_camera d) then DetectionResult.VirtualCamera
      else DetectionResult.NoCamera := by
  simp only [detect_cameras, List.isEmpty_cons, Bool.false_eq_true, if_false,
    foldl_detectStep_fst, foldl_detectStep_snd, Bool.false_or]

theorem optLower_congr {a b : Option Str} (h : a.map toLowerStr = b.map toLowerStr) :
    optLower a = optLower b := by
  cases a <;> cases b <;> simp_all [optLower]

theorem charOfNat_toNat (n : Nat) (h : n.isValidChar) : (Char.ofNat n).toNat = n := by
  simp [Char.ofNat, h, Char.ofNatAux, Char.toNat]
  rfl

theorem toLower_not_upper (c : Char) : isAsciiUpper (Char.toLower c) = false := by
  by_cases h : c.toNat ≥ 65 ∧ c.toNat ≤ 90
  · have heq : Char.toLower c = Char.ofNat (c.toNat + 32) := by
      unfold Char.toLower
      simp [h]
    have hval : (Char.ofNat (c.toNat + 32)).toNat = c.toNat + 32 :=
      charOfNat_toNat _ (Or.inl (by omega))
    rw [heq]
    simp only [isAsciiUpper, hval, Bool.and_eq_false_iff, decide_eq_false_iff_not]
    omega
  · have heq : Char.toLower c = c := by
      unfold Char.toLower
      simp [h]
    rw [heq]
    simp only [isAsciiUpper, Bool.and_eq_false_iff, decide_eq_false_iff_not]
    omega

theorem mem_of_mem_dropAfterFirst (token : Str) (s rest : Str)
    (h : dropAfterFirst token s = some rest) : ∀ c ∈ rest, c ∈ s := by
  induction s with
  | nil =>
    unfold dropAfterFirst at h
    split at h
    · cases h; intro c hc; cases hc
    · cases h
  | cons a as ih =>
    unfold dropAfterFirst at h
    split at h
    · cases h
      intro c hc
      exact List.mem_of_mem_drop hc
    · intro c hc
      exact List.mem_cons_of_mem a (ih h c hc)

theorem utf8Len_append (a b : Str) : utf8Len (a ++ b) = utf8Len a + utf8Len b := by
  simp [utf8Len]

theorem utf8Len_take_le (n : Nat) (s : Str) : utf8Len (s.take n) ≤ utf8Len s := by
  conv_rhs => rw [← List.take_append_drop n s]
  rw [utf8Len_append]
  omega

theorem extract_segment_some (source token seg : Str)
    (h : extract_segment source token = some seg) :
    utf8Len seg = 4 ∧ ∀ c ∈ seg, c ∈ source := by
  unfold extract_segment at h
  cases hfind : dropAfterFirst token source with
  | none => rw [hfind] at h; cases h
  | some rest =>
    rw [hfind] at h
    simp only [] at h
    split at h
    case isTrue hlen =>
      cases h
      refine ⟨by simpa using hlen, fun c hc => ?_⟩
      exact mem_of_mem_dropAfterFirst token source rest hfind c (List.mem_of_mem_take hc)
    case isFalse => cases h

theorem extract_from_lower (p token v : Str)
    (h : extract_segment (toLowerStr p) token = some v) :
    utf8Len v = 4 ∧ v.all (fun c => !isAsciiUpper c) = true := by
  obtain ⟨hlen, hmem⟩ := extract_segment_some _ _ _ h
  refine ⟨hlen, ?_⟩
  rw [List.all_eq_true]
  intro c hc
  obtain ⟨c0, _, rfl⟩ := List.mem_map.mp (hmem c hc)
  simp [toLower_not_upper]

/-! ### Claims -/

/-- C1: real-dominance — any inventory containing at least one record
the classifier marks non-virtual aggregates to `RealCamera`, however
many virtual records are present. -/
theorem detect_cameras_real_dominance (devices : List CameraDevice) (d : CameraDevice)
    (hmem : d ∈ devices) (hreal : is_virtual_camera d = false) :
    detect_cameras devices = DetectionResult.RealCamera := by
  obtain ⟨a, rest, rfl⟩ : ∃ a rest, devices = a :: rest := by
    cases devices with
    | nil => cases hmem
    | cons a rest => exact ⟨a, rest, rfl⟩
  have hany : (a :: rest).any (fun x => !is_virtual_camera x) = true :=
    List.any_eq_true.mpr ⟨d, hmem, by simp [hreal]⟩
  rw [detect_cameras_cons, hany]
  rfl

/-- C1 witness: a genuine webcam next to a virtual one still yields
`RealCamera`. -/
theorem detect_cameras_real_dominance_witness :
    detect_cameras [obsDevice, brioDevice] = DetectionResult.RealCamera :=
  detect_cameras_real_dominance [obsDevice, brioDevice] brioDevice (by decide) (by decide)

/-- C5: all-virtual — a non-empty inventory in which every record is
classified virtual aggregates to `VirtualCamera`. -/
theorem detect_cameras_all_virtual (devices : List CameraDevice)
    (hne : devices ≠ []) (hall : ∀ d ∈ devices, is_virtual_camera d = true) :
    detect_cameras devices = DetectionResult.VirtualCamera := by
  obtain ⟨a, rest, rfl⟩ : ∃ a rest, devices = a :: rest := by
    cases devices with
    | nil => exact absurd rfl hne
    | cons a rest => exact ⟨a, rest, rfl⟩
  have hreal : (a :: rest).any (fun x => !is_virtual_camera x) = false := by
    rw [List.any_eq_false]
    intro x hx
    simp [hall x hx]
  have hvirt : (a :: rest).any (fun x => is_virtual_camera x) = true :=
    List.any_eq_true.mpr ⟨a, List.mem_cons_self a rest, hall a (List.mem_cons_self a rest)⟩
  rw [detect_cameras_cons, hreal, hvirt]
  rfl

/-- C5 witness: an inventory holding only the OBS record yields
`VirtualCamera`. -/
theorem detect_cameras_all_virtual_witness :
    detect_cameras [obsDevice] = DetectionResult.VirtualCamera :=
  detect_cameras_all_virtual [obsDevice] (by decide) (by decide)

/-- C6: empty inventory — when every backend contributes nothing, the
merged inventory is empty and the verdict is `NoCamera`. -/
theorem detect_cameras_empty_inventory (backends : List (List CameraDevice))
    (h : ∀ b ∈ backends, b = []) :
    detect_cameras (merge_backends backends) = DetectionResult.NoCamera := by
  have hnil : merge_backends backends = [] := by
    simpa [merge_backends] using List.flatten_eq_nil_iff.mpr h
  rw [hnil]
  rfl

/-- C6 witness: two empty backend outputs merge to `NoCamera`. -/
theorem detect_cameras_empty_inventory_witness :
    detect_cameras (merge_backends [[], []]) = DetectionResult.NoCamera :=
  detect_cameras_empty_inventory [[], []] (by decide)

/-- C2 counterexample: the path ".../vid_04f2&pid_b5" yields a vendor
id and no product id, so the two components are not both-present or
both-absent. -/
theorem parse_vid_pid_single_component :
    parse_vid_pid (some (".../vid_04f2&pid_b5".toList)) = (some ("04f2".toList), none) := by
  decide

/-- C2 amended: the two extractions are independent — both components
are absent when the path is absent, and a path may yield a vendor id
without a product id or vice versa. -/
theorem parse_vid_pid_independent :
    parse_vid_pid none = (none, none)
    ∧ parse_vid_pid (some ("usb#vid_04f2&rev_01".toList)) = (some ("04f2".toList), none)
    ∧ parse_vid_pid (some ("usb#pid_b5f4&rev_01".toList)) = (none, some ("b5f4".toList)) := by
  decide

/-- C3 counterexample: only two characters follow `vid_` in "vid_ßß"
(the path has 6 characters, the token 4), yet the extractor returns the
two-character value "ßß" rather than `None`, because the Rust code
checks `segment.len() == 4` and `len` counts UTF-8 bytes, not
characters. -/
theorem extract_two_char_counterexample :
    ("vid_ßß".toList).length = 6
    ∧ parse_vid_pid (some ("vid_ßß".toList)) = (some (['ß', 'ß']), none) := by
  decide

/-- C3 amended: when the characters following the token's first
occurrence total fewer than 4 UTF-8 bytes — for ASCII paths, exactly
when fewer than 4 characters follow — the extractor returns `None`
rather than a truncated value; in particular ".../vid_04f2&pid_b5"
yields a vendor id "04f2" and no product id. -/
theorem extract_short_suffix_none :
    (∀ source token rest : Str, dropAfterFirst token source = some rest →
        utf8Len rest < 4 → extract_segment source token = none)
    ∧ parse_vid_pid (some (".../vid_04f2&pid_b5".toList)) = (some ("04f2".toList), none) := by
  constructor
  · intro source token rest hfind hlt
    have hle := utf8Len_take_le 4 rest
    have hne : (utf8Len (rest.take 4) == 4) = false := by
      simp only [beq_eq_false_iff_ne, ne_eq]
      omega
    simp [extract_segment, hfind, hne]
  · decide

/-- C3 amended witness: "vid_b5" has the token with a 2-byte suffix and
extraction returns `None`. -/
theorem extract_short_suffix_none_witness :
    extract_segment ("vid_b5".toList) ("vid_".toList) = none :=
  extract_short_suffix_none.1 ("vid_b5".toList) ("vid_".toList) ("b5".toList)
    (by decide) (by decide)

/-- C4: the hardware layer matches on the exact (vendor, product) pair:
with the other layers silent, vendor "0bda" with product "58f4" is
virtual while vendor "0bda" with product "0000" is real. -/
theorem hardware_exact_pair (device : CameraDevice)
    (hname : name_layer device = false) (hclsid : clsid_layer device = false)
    (hvid : device.vid = some ("0bda".toList)) :
    (device.pid = some ("58f4".toList) → is_virtual_camera device = true)
    ∧ (device.pid = some ("0000".toList) → is_virtual_camera device = false) := by
  have hbase : is_virtual_camera device = vid_pid_layer device := by
    simp [is_virtual_camera, hname, hclsid]
  constructor <;> intro hpid <;> rw [hbase] <;>
    simp [vid_pid_layer, hvid, hpid, vid_pid_blacklist, toLowerStr]

/-- C4 witness: the two concrete records, tripping and missing the pair
table respectively. -/
theorem hardware_exact_pair_witness :
    is_virtual_camera pairedIdDevice = true ∧ is_virtual_camera unpairedIdDevice = false :=
  ⟨(hardware_exact_pair pairedIdDevice (by decide) (by decide) (by decide)).1 (by decide),
   (hardware_exact_pair unpairedIdDevice (by decide) (by decide) (by decide)).2 (by decide)⟩

/-- C7 counterexample: "usb#vid_zzzz" extracts the value "zzzz", which
is not hexadecimal; and "vid_ßß" extracts "ßß", which does not have 4
characters (its 2 characters merely occupy 4 bytes). -/
theorem extract_not_hex_counterexample :
    parse_vid_pid (some ("usb#vid_zzzz".toList)) = (some ("zzzz".toList), none)
    ∧ (("zzzz".toList).all isHexDigitChar) = false
    ∧ parse_vid_pid (some ("vid_ßß".toList)) = (some (['ß', 'ß']), none)
    ∧ (['ß', 'ß'] : Str).length ≠ 4 := by
  decide

/-- C7 amended: every produced component consists of characters of the
lower-cased path totalling exactly 4 UTF-8 bytes (4 characters when
ASCII); it contains no uppercase ASCII letter, but is not validated to
be hexadecimal. -/
theorem extract_value_shape (p : Str) :
    (∀ v, (parse_vid_pid (some p)).fst = some v →
        utf8Len v = 4 ∧ v.all (fun c => !isAsciiUpper c) = true)
    ∧ (∀ v, (parse_vid_pid (some p)).snd = some v →
        utf8Len v = 4 ∧ v.all (fun c => !isAsciiUpper c) = true) := by
  constructor <;> intro v hv <;> exact extract_from_lower p _ v hv

/-- C7 amended witness: the vendor id extracted from "usb#vid_04F2" is
4 bytes long and free of uppercase ASCII. -/
theorem extract_value_shape_witness :
    utf8Len ("04f2".toList) = 4 ∧ ("04f2".toList).all (fun c => !isAsciiUpper c) = true :=
  (extract_value_shape ("usb#vid_04F2".toList)).1 ("04f2".toList) (by decide)

/-- C8: records whose string fields agree after lower-casing are
classified identically. -/
theorem classifier_case_insensitive (d1 d2 : CameraDevice)
    (hname : toLowerStr d1.name = toLowerStr d2.name)
    (hman : d1.manufacturer.map toLowerStr = d2.manufacturer.map toLowerStr)
    (hdrv : d1.driver.map toLowerStr = d2.driver.map toLowerStr)
    (hpath : d1.device_path.map toLowerStr = d2.device_path.map toLowerStr)
    (hvid : d1.vid.map toLowerStr = d2.vid.map toLowerStr)
    (hpid : d1.pid.map toLowerStr = d2.pid.map toLowerStr)
    (hclsid : d1.clsid.map toLowerStr = d2.clsid.map toLowerStr) :
    is_virtual_camera d1 = is_virtual_camera d2 := by
  have hhay : haystack d1 = haystack d2 := by
    unfold haystack
    rw [hname, optLower_congr hman, optLower_congr hdrv, optLower_congr hpath]
  have hn : name_layer d1 = name_layer d2 := by
    unfold name_layer
    rw [hhay]
  have hc : clsid_layer d1 = clsid_layer d2 := by
    cases h1 : d1.clsid <;> cases h2 : d2.clsid <;> rw [h1, h2] at hclsid <;>
      simp_all [clsid_layer]
  have hvp : vid_pid_layer d1 = vid_pid_layer d2 := by
    cases hv1 : d1.vid <;> cases hv2 : d2.vid <;> rw [hv1, hv2] at hvid <;>
      cases hp1 : d1.pid <;> cases hp2 : d2.pid <;> rw [hp1, hp2] at hpid <;>
        simp_all [vid_pid_layer]
  unfold is_virtual_camera
  rw [hn, hc, hvp]

/-- C8 witness: "OBS Virtual Camera" and "obs virtual camera" classify
identically, and both virtual. -/
theorem classifier_case_insensitive_witness :
    is_virtual_camera obsDevice = is_virtual_camera obsLowerDevice
    ∧ is_virtual_camera obsDevice = true :=
  ⟨classifier_case_insensitive obsDevice obsLowerDevice
    (by decide) (by decide) (by decide) (by decide) (by decide) (by decide) (by decide),
   by decide⟩

/-- C9: a record whose clsid, lower-cased, contains the generic
DirectShow video-input-device category GUID is classified virtual
whatever its other fields hold. -/
theorem clsid_generic_guid_forces_virtual (device : CameraDevice) (c : Str)
    (hc : device.clsid = some c)
    (hmatch : containsSub videoInputCategoryGuid (toLowerStr c) = true) :
    is_virtual_camera device = true := by
  unfold videoInputCategoryGuid at hmatch
  have hcl : clsid_layer device = true := by
    unfold clsid_layer
    rw [hc]
    unfold clsid_blacklist
    simp only [List.any_cons, List.any_nil, Bool.or_eq_true]
    exact Or.inl hmatch
  cases hn : name_layer device <;> simp [is_virtual_camera, hn, hcl]

/-- C9 witness: an ordinary "Integrated Camera" carrying the category
GUID is flagged virtual. -/
theorem clsid_generic_guid_forces_virtual_witness :
    is_virtual_camera genericGuidDevice = true :=
  clsid_generic_guid_forces_virtual genericGuidDevice
    ("\x7b860BB310-5D01-11D0-BD3B-00A0C911CE86\x7d".toList) (by decide) (by decide)

/-- C10: a record each of whose individual fields, lower-cased, matches
no name-blacklist needle is still classified virtual, because the
haystack "web camsipro" forms the needle "camsip" across the
name/manufacturer boundary. -/
theorem cross_field_boundary_virtual :
    (name_blacklist.all fun needle =>
        !containsSub needle (toLowerStr crossFieldDevice.name)) = true
    ∧ crossFieldDevice.manufacturer = some ("Sipro".toList)
    ∧ (name_blacklist.all fun needle =>
        !containsSub needle (toLowerStr ("Sipro".toList))) = true
    ∧ crossFieldDevice.driver = none
    ∧ crossFieldDevice.device_path = none
    ∧ crossFieldDevice.vid = none
    ∧ crossFieldDevice.pid = none
    ∧ crossFieldDevice.clsid = none
    ∧ is_virtual_camera crossFieldDevice = true := by
  decide

end CameraDetect
